import Mathlib

/-!
# Verification of the spreadsheet-session wrapper (`src/utils/sheet.py`)

A shallow embedding of the `Sheet` class and the slice of the `gspread`
backend it uses.  The remote backend — the spreadsheet resources, their
permission lists, the trace of backend round trips — and the local log are
explicit state (`World`), threaded through every operation.  Whether the
backend accepts or rejects a mutating `share` request is not decided by the
code under verification, so it enters each operation as a parameter
(`ShareOutcome`) and theorems quantify over it.  Python exceptions become
values of an inductive type, one constructor per reachable raise site; a
raised exception aborts the computation (`Except.error`), discarding the
state, which is all the claims below ever observe of an aborted run.
-/

namespace SheetSpec

/-- A permission entry as returned by `list_permissions`: the dictionary
fields `emailAddress` and `role` that `Sheet._verify` reads. -/
structure Permission where
  emailAddress : String
  role : String
  deriving DecidableEq, Repr

/-- A remote spreadsheet resource held by the backend: the three lookup
fields (`title`, `key`, `url`), its permission list, and its worksheet
titles (read by `Sheet._initialize`). -/
structure Spreadsheet where
  title : String
  key : String
  url : String
  permissions : List Permission
  worksheets : List String
  deriving DecidableEq, Repr

/-- One backend round trip, recorded in the call trace.  A spreadsheet
handle is the index of the resource in `World.sheets` (resources are never
deleted, so indices are stable identities). -/
inductive BackendCall where
  | openByTitle (title : String)
  | openByKey (key : String)
  | openByUrl (url : String)
  | create (title : String)
  | listPermissions (handle : Nat)
  | worksheets (handle : Nat)
  | share (handle : Nat) (email permType role : String) (notify : Bool)
  deriving DecidableEq, Repr

/-- Log levels used by the module (`self.log.info/warning/error`). -/
inductive LogLevel where
  | info
  | warning
  | error
  deriving DecidableEq, Repr

/-- One emitted log line. -/
structure LogEntry where
  level : LogLevel
  msg : String
  deriving DecidableEq, Repr

/-- The global state: backend resources, the freshness source backing
`uuid4()`, the backend call trace, and the log. -/
structure World where
  sheets : List Spreadsheet
  uuidCounter : Nat
  calls : List BackendCall
  log : List LogEntry
  deriving DecidableEq, Repr

/-- The backend's response to a `share` request: accepted, rejected with
`gspread.exceptions.RequestError`, or failed with some other exception. -/
inductive ShareOutcome where
  | accepted
  | requestError
  | otherFailure (e : String)
  deriving DecidableEq, Repr

/-- Python exceptions crossing the boundaries we model.  The source raises
`SheetError` at three distinct sites with three distinct messages; the
spec's error taxonomy names them `ConfigurationError` (sheet.py:72, bad
lookup key), `NotFoundError` (sheet.py:77, `SpreadsheetNotFound` re-raised)
and `PermissionError` (sheet.py:94, insufficient role), and we keep one
constructor per site, carrying the data interpolated into its message.
`spreadsheetNotFound` and `requestError` are the two `gspread` exceptions
the module catches; `otherBackend` is any other backend failure. -/
inductive PyExn where
  | sheetConfigurationError (key : String)
  | sheetNotFoundError (key value : String)
  | sheetPermissionError (whoami : String)
  | spreadsheetNotFound
  | requestError
  | otherBackend (e : String)
  deriving DecidableEq, Repr

/-- The process-wide `gspread` client: we only use its fixed service
identity `gc.auth._service_account_email`. -/
structure GClient where
  authEmail : String
  deriving DecidableEq, Repr

def World.logInfo (w : World) (m : String) : World :=
  { w with log := w.log ++ [⟨LogLevel.info, m⟩] }

def World.logWarning (w : World) (m : String) : World :=
  { w with log := w.log ++ [⟨LogLevel.warning, m⟩] }

def World.logError (w : World) (m : String) : World :=
  { w with log := w.log ++ [⟨LogLevel.error, m⟩] }

/-- Record one backend round trip in the trace. -/
def World.record (w : World) (c : BackendCall) : World :=
  { w with calls := w.calls ++ [c] }

/-- Models `str(uuid4())` (sheet.py:44): an injective fresh-name source
indexed by the world's freshness counter.  The code under verification
never inspects the shape of the generated string, only its freshness. -/
def uuid4 (n : Nat) : String :=
  String.mk (List.replicate (n + 1) 'u')

/-- `gc.open(value)`: look the spreadsheet up by title; raises
`gspread.exceptions.SpreadsheetNotFound` when no resource matches. -/
def gcOpen (value : String) (w : World) : Except PyExn (Nat × World) :=
  let w := w.record (BackendCall.openByTitle value)
  match w.sheets.findIdx? (fun s => s.title == value) with
  | some i => Except.ok (i, w)
  | none => Except.error PyExn.spreadsheetNotFound

/-- `gc.open_by_key(value)`. -/
def gcOpenByKey (value : String) (w : World) : Except PyExn (Nat × World) :=
  let w := w.record (BackendCall.openByKey value)
  match w.sheets.findIdx? (fun s => s.key == value) with
  | some i => Except.ok (i, w)
  | none => Except.error PyExn.spreadsheetNotFound

/-- `gc.open_by_url(value)`. -/
def gcOpenByUrl (value : String) (w : World) : Except PyExn (Nat × World) :=
  let w := w.record (BackendCall.openByUrl value)
  match w.sheets.findIdx? (fun s => s.url == value) with
  | some i => Except.ok (i, w)
  | none => Except.error PyExn.spreadsheetNotFound

/-- The resource `gc.create(title)` provisions: the service account owns
it, it has no worksheets yet, and the backend derives its key and url. -/
def newSpreadsheet (authEmail title : String) : Spreadsheet :=
  { title := title
    key := "key-of-" ++ title
    url := "url-of-" ++ title
    permissions := [⟨authEmail, "owner"⟩]
    worksheets := [] }

/-- `gc.create(title)`: provision a new resource and return its handle. -/
def gcCreate (authEmail title : String) (w : World) : Nat × World :=
  let w := w.record (BackendCall.create title)
  (w.sheets.length, { w with sheets := w.sheets ++ [newSpreadsheet authEmail title] })

/-- `self.s.list_permissions()`: one backend round trip returning the
resource's permission entries. -/
def listPermissions (h : Nat) (w : World) : List Permission × World :=
  let w := w.record (BackendCall.listPermissions h)
  ((w.sheets[h]?.map Spreadsheet.permissions).getD [], w)

/-- `self.s.worksheets()` projected to the titles `Sheet._initialize`
reads: one backend round trip. -/
def worksheetTitles (h : Nat) (w : World) : List String × World :=
  let w := w.record (BackendCall.worksheets h)
  ((w.sheets[h]?.map Spreadsheet.worksheets).getD [], w)

/-- An accepted `share(email, role)` applied to a resource: the permission
entry for `email` is upserted to `role`; granting `owner` transfers
ownership, demoting any previous owner to `writer`. -/
def Spreadsheet.applyShare (s : Spreadsheet) (email role : String) : Spreadsheet :=
  let demoted :=
    if role == "owner" then
      s.permissions.map fun p =>
        if p.role == "owner" && p.emailAddress != email then { p with role := "writer" } else p
    else s.permissions
  let updated :=
    if demoted.any (fun p => p.emailAddress == email) then
      demoted.map fun p => if p.emailAddress == email then { p with role := role } else p
    else demoted ++ [⟨email, role⟩]
  { s with permissions := updated }

/-- `self.s.share(email, perm_type=..., role=..., notify=...)`: records the
round trip, and on acceptance applies the permission change.  The backend's
verdict is the `outcome` parameter; the caller turns it into the Python
control flow (return / raise). -/
def backendShare (h : Nat) (email permType role : String) (notify : Bool)
    (outcome : ShareOutcome) (w : World) : ShareOutcome × World :=
  let w := w.record (BackendCall.share h email permType role notify)
  match outcome with
  | ShareOutcome.accepted =>
      (ShareOutcome.accepted,
        { w with sheets :=
            match w.sheets[h]? with
            | some s => w.sheets.set h (s.applyShare email role)
            | none => w.sheets })
  | o => (o, w)

/-- The Session object: `self.whoami`, the handle `self.s`, and the
permission fields `self.owner` / `self.role` captured by `_verify`
(class-level default `None` until assigned). -/
structure Sheet where
  whoami : String
  s : Nat
  owner : Option String
  role : Option String
  deriving DecidableEq, Repr

/-- `Sheet._open_sheet(key, value)` (sheet.py:52–77): dispatch on the
lookup method; an unknown method logs and raises `SheetError` (the
configuration error, not caught by the `except` clause); a
`SpreadsheetNotFound` from the backend is caught and re-raised as
`SheetError` (the not-found error). -/
def openSheet (key value : String) (w : World) : Except PyExn (Nat × World) :=
  let attempt : Except PyExn (Nat × World) :=
    if key == "title" then
      gcOpen value (w.logInfo ("Opening sheet by title: " ++ value ++ "."))
    else if key == "key" then
      gcOpenByKey value (w.logInfo ("Opening sheet by key: " ++ value ++ "."))
    else if key == "url" then
      gcOpenByUrl value (w.logInfo ("Opening sheet by url: " ++ value ++ "."))
    else
      Except.error (PyExn.sheetConfigurationError key)
  match attempt with
  | Except.error PyExn.spreadsheetNotFound =>
      Except.error (PyExn.sheetNotFoundError key value)
  | r => r

/-- The loop of `Sheet._verify` (sheet.py:87–91): fold over the permission
entries, recording the owner's email and the caller's role (later entries
overwrite earlier ones, as repeated assignment does). -/
def verifyLoop (whoami : String) :
    List Permission → Option String × Option String → Option String × Option String
  | [], st => st
  | u :: rest, (owner, role) =>
      let owner := if u.role == "owner" then some u.emailAddress else owner
      let role := if u.emailAddress == whoami then some u.role else role
      verifyLoop whoami rest (owner, role)

/-- The failure condition of `Sheet._verify` (sheet.py:93):
`self.role not in ['owner', 'writer'] or self.role is None`. -/
def badRole (role : Option String) : Bool :=
  (!(role == some "owner" || role == some "writer")) || role == none

/-- `Sheet._verify` (sheet.py:79–96): enumerate permissions, resolve
`owner` and `role`, and raise `SheetError` (the permission error) when the
caller's resolved role is insufficient. -/
def verify (whoami : String) (h : Nat) (w : World) :
    Except PyExn ((Option String × Option String) × World) :=
  let pr := listPermissions h w
  let st := verifyLoop whoami pr.1 (none, none)
  if badRole st.2 then Except.error (PyExn.sheetPermissionError whoami)
  else Except.ok (st, pr.2)

/-- `Sheet._initialize` (sheet.py:98–115): fetch the worksheet titles and
branch on whether `config` exists; both branches are no-ops in the source. -/
def initializeSheet (h : Nat) (w : World) : World :=
  let pr := worksheetTitles h w
  if "config" ∈ pr.1 then pr.2 else pr.2

/-- The lookup/creation phase of `Sheet.__init__` (sheet.py:38–46): a first
positional argument is a title lookup; else `kwargs.popitem()` removes the
most recently added pair (CPython dict LIFO order) and dispatches on it;
else a fresh title is generated and a new spreadsheet created.  `kwargs` is
the keyword mapping in insertion order. -/
def openPhase (gc : GClient) (args : List String) (kwargs : List (String × String))
    (w : World) : Except PyExn (Nat × World) :=
  match args with
  | t :: _ => openSheet "title" t w
  | [] =>
    match kwargs.reverse with
    | (key, value) :: _ => openSheet key value w
    | [] =>
        let title := uuid4 w.uuidCounter
        let w := { w with uuidCounter := w.uuidCounter + 1 }
        let w := w.logInfo ("No lookup value found, creating a new spreadsheet: " ++ title ++ ".")
        Except.ok (gcCreate gc.authEmail title w)

/-- `Sheet.__init__` (sheet.py:22–50): open or create the resource, then
`self._verify()`, then `self._initialize()`, in that order, before the
constructor returns the Session. -/
def sheetInit (gc : GClient) (args : List String) (kwargs : List (String × String))
    (w : World) : Except PyExn (Sheet × World) :=
  match openPhase gc args kwargs w with
  | Except.error e => Except.error e
  | Except.ok hw =>
    match verify gc.authEmail hw.1 hw.2 with
    | Except.error e => Except.error e
    | Except.ok res =>
        Except.ok
          ({ whoami := gc.authEmail, s := hw.1, owner := res.1.1, role := res.1.2 },
            initializeSheet hw.1 res.2)

/-- `Sheet.share(email, role, notify)` (sheet.py:116–138): one backend
share request with `perm_type='user'`; `RequestError` is caught, logged as
a warning and converted to `False`; acceptance logs and returns `True`;
any other backend failure propagates. -/
def Sheet.share (sh : Sheet) (email role : String) (notify : Bool)
    (outcome : ShareOutcome) (w : World) : Except PyExn (Bool × Sheet × World) :=
  match backendShare sh.s email "user" role notify outcome w with
  | (ShareOutcome.accepted, w) =>
      Except.ok (true, sh, w.logInfo ("Shared with " ++ email ++ "."))
  | (ShareOutcome.requestError, w) =>
      Except.ok (false, sh, w.logWarning ("Unable to share with " ++ email ++ "."))
  | (ShareOutcome.otherFailure e, _) =>
      Except.error (PyExn.otherBackend e)

/-- `Sheet.change_owner(new_owner_email)` (sheet.py:140–163): only when
`self.owner == self.whoami` does it issue a backend share request granting
`role='owner'` with `notify=False`; otherwise it logs a warning and returns
`False` without contacting the backend. -/
def Sheet.change_owner (sh : Sheet) (newOwnerEmail : String)
    (outcome : ShareOutcome) (w : World) : Except PyExn (Bool × Sheet × World) :=
  if sh.owner == some sh.whoami then
    match backendShare sh.s newOwnerEmail "user" "owner" false outcome w with
    | (ShareOutcome.accepted, w) =>
        Except.ok (true, sh, w.logInfo ("Ownership changed to " ++ newOwnerEmail ++ "."))
    | (ShareOutcome.requestError, w) =>
        Except.ok (false, sh,
          w.logWarning ("Unable to change owner to " ++ newOwnerEmail ++ "."))
    | (ShareOutcome.otherFailure e, _) =>
        Except.error (PyExn.otherBackend e)
  else
    Except.ok (false, sh,
      w.logWarning "Service account is not the current owner of document. Unable to change owner.")

/-! ## Projection lemmas for the state-threading helpers -/

@[simp] theorem record_sheets (w : World) (c : BackendCall) : (w.record c).sheets = w.sheets := rfl

@[simp] theorem record_uuidCounter (w : World) (c : BackendCall) :
    (w.record c).uuidCounter = w.uuidCounter := rfl

@[simp] theorem record_calls (w : World) (c : BackendCall) :
    (w.record c).calls = w.calls ++ [c] := rfl

@[simp] theorem record_log (w : World) (c : BackendCall) : (w.record c).log = w.log := rfl

@[simp] theorem logInfo_sheets (w : World) (m : String) : (w.logInfo m).sheets = w.sheets := rfl

@[simp] theorem logInfo_uuidCounter (w : World) (m : String) :
    (w.logInfo m).uuidCounter = w.uuidCounter := rfl

@[simp] theorem logInfo_calls (w : World) (m : String) : (w.logInfo m).calls = w.calls := rfl

@[simp] theorem logInfo_log (w : World) (m : String) :
    (w.logInfo m).log = w.log ++ [⟨LogLevel.info, m⟩] := rfl

@[simp] theorem logWarning_sheets (w : World) (m : String) :
    (w.logWarning m).sheets = w.sheets := rfl

@[simp] theorem logWarning_uuidCounter (w : World) (m : String) :
    (w.logWarning m).uuidCounter = w.uuidCounter := rfl

@[simp] theorem logWarning_calls (w : World) (m : String) : (w.logWarning m).calls = w.calls := rfl

@[simp] theorem logWarning_log (w : World) (m : String) :
    (w.logWarning m).log = w.log ++ [⟨LogLevel.warning, m⟩] := rfl

@[simp] theorem logError_sheets (w : World) (m : String) : (w.logError m).sheets = w.sheets := rfl

@[simp] theorem logError_calls (w : World) (m : String) : (w.logError m).calls = w.calls := rfl

@[simp] theorem logError_log (w : World) (m : String) :
    (w.logError m).log = w.log ++ [⟨LogLevel.error, m⟩] := rfl

/-- The world after a zero-argument construction starting from `w`: one new
resource, a bumped freshness counter, three recorded round trips, one log
line. -/
def createdWorld (gc : GClient) (w : World) : World :=
  { sheets := w.sheets ++ [newSpreadsheet gc.authEmail (uuid4 w.uuidCounter)]
    uuidCounter := w.uuidCounter + 1
    calls := w.calls ++
      [BackendCall.create (uuid4 w.uuidCounter),
       BackendCall.listPermissions w.sheets.length,
       BackendCall.worksheets w.sheets.length]
    log := w.log ++
      [⟨LogLevel.info,
        "No lookup value found, creating a new spreadsheet: " ++ uuid4 w.uuidCounter ++ "."⟩] }

/-- Zero-argument construction always succeeds: the backend provisions a
fresh resource owned by the service account, so `_verify` resolves
`role = owner`. -/
theorem sheetInit_create (gc : GClient) (w : World) :
    sheetInit gc [] [] w =
      Except.ok
        ({ whoami := gc.authEmail, s := w.sheets.length,
           owner := some gc.authEmail, role := some "owner" }, createdWorld gc w) := by
  have hget :
      (w.sheets ++ [newSpreadsheet gc.authEmail (uuid4 w.uuidCounter)])[w.sheets.length]? =
        some (newSpreadsheet gc.authEmail (uuid4 w.uuidCounter)) := by
    simp
  simp only [sheetInit, openPhase, gcCreate, verify, listPermissions, initializeSheet,
    worksheetTitles, record_sheets, logInfo_sheets]
  simp [hget, newSpreadsheet, verifyLoop, badRole, createdWorld, World.record, World.logInfo]

/-- A successful `_verify` returns exactly the state the loop resolved, and
that state passed the role check. -/
theorem verify_ok_role {whoami : String} {h : Nat} {w : World}
    {res : (Option String × Option String) × World}
    (hv : verify whoami h w = Except.ok res) :
    badRole res.1.2 = false ∧
    res.1 = verifyLoop whoami (listPermissions h w).1 (none, none) := by
  simp only [verify] at hv
  split at hv
  · exact absurd hv (by simp)
  · rename_i hcond
    injection hv with h1
    constructor
    · rw [← h1]; simpa using hcond
    · rw [← h1]

/-- When the loop resolves a bad role, `_verify` raises the permission
`SheetError`. -/
theorem verify_bad {whoami : String} {h : Nat} {w : World}
    (hb : badRole (verifyLoop whoami (listPermissions h w).1 (none, none)).2 = true) :
    verify whoami h w = Except.error (PyExn.sheetPermissionError whoami) := by
  simp [verify, hb]

/-- A role that passes the `_verify` check is `owner` or `writer`. -/
theorem badRole_false {r : Option String} (hb : badRole r = false) :
    r = some "owner" ∨ r = some "writer" := by
  rcases r with _ | r
  · simp [badRole] at hb
  · simp [badRole] at hb
    by_cases h1 : r = "owner"
    · exact Or.inl (by rw [h1])
    · exact Or.inr (by rw [hb h1])

/-! ## Concrete fixtures used by the witnesses -/

/-- The process-wide client of the examples. -/
def gcFix : GClient := ⟨"svc@example.com"⟩

/-- A resource on which the service account only has `reader` access. -/
def sheetReaderFix : Spreadsheet :=
  { title := "Budget", key := "K1", url := "U1",
    permissions := [⟨"alice@example.com", "owner"⟩, ⟨"svc@example.com", "reader"⟩],
    worksheets := ["config"] }

/-- A world holding just `sheetReaderFix`. -/
def wFix : World := ⟨[sheetReaderFix], 0, [], []⟩

/-- C1: for every construction, a Session is only ever returned with the
caller's recorded role in `{owner, writer}`; and whenever the opened
resource resolves an absent or insufficient role for the caller, the
constructor fails with the permission error — the verification gate runs
unconditionally before `__init__` returns. -/
theorem c1_role_gate (gc : GClient) (args : List String) (kwargs : List (String × String))
    (w : World) :
    (∀ sh w1, sheetInit gc args kwargs w = Except.ok (sh, w1) →
      sh.role = some "owner" ∨ sh.role = some "writer") ∧
    (∀ h w1, openPhase gc args kwargs w = Except.ok (h, w1) →
      badRole (verifyLoop gc.authEmail (listPermissions h w1).1 (none, none)).2 = true →
      sheetInit gc args kwargs w = Except.error (PyExn.sheetPermissionError gc.authEmail)) := by
  constructor
  · intro sh w1 hok
    unfold sheetInit at hok
    revert hok
    cases hop : openPhase gc args kwargs w with
    | error e => intro hok; exact (nomatch hok)
    | ok hw =>
      intro hok
      dsimp only at hok
      revert hok
      cases hv : verify gc.authEmail hw.1 hw.2 with
      | error e => intro hok; exact (nomatch hok)
      | ok res =>
        intro hok
        injection hok with hpair
        have hshrole : sh.role = res.1.2 := by
          have := congrArg (fun p : Sheet × World => p.1.role) hpair
          simpa using this.symm
        rw [hshrole]
        exact badRole_false (verify_ok_role hv).1
  · intro h w1 hop hbad
    unfold sheetInit
    rw [hop]
    have hv := @verify_bad gc.authEmail h w1 hbad
    simp [hv]

/-- C1 witness: on a resource where the service account is only a reader,
construction fails with the permission error. -/
theorem c1_role_gate_w :
    sheetInit gcFix ["Budget"] [] wFix
      = Except.error (PyExn.sheetPermissionError "svc@example.com") :=
  (c1_role_gate gcFix ["Budget"] [] wFix).2 0 _ rfl rfl

/-- A Session whose caller is not the recorded owner. -/
def sessionNotOwner : Sheet := ⟨"svc@example.com", 0, some "alice@example.com", some "writer"⟩

/-- A Session whose caller is the recorded owner. -/
def sessionOwner : Sheet := ⟨"svc@example.com", 0, some "svc@example.com", some "owner"⟩

/-- C2: `share` converts a backend rejection (`RequestError`) into `False`
plus a logged warning instead of raising, returns `True` on acceptance, and
propagates every other backend failure un-caught. -/
theorem c2_share_never_raises_on_rejection (sh : Sheet) (email role : String) (notify : Bool)
    (w : World) :
    (∃ w1, Sheet.share sh email role notify ShareOutcome.requestError w
        = Except.ok (false, sh, w1) ∧
      LogEntry.mk LogLevel.warning ("Unable to share with " ++ email ++ ".") ∈ w1.log) ∧
    (∃ w1, Sheet.share sh email role notify ShareOutcome.accepted w
        = Except.ok (true, sh, w1)) ∧
    (∀ e, Sheet.share sh email role notify (ShareOutcome.otherFailure e) w
        = Except.error (PyExn.otherBackend e)) := by
  refine ⟨⟨_, rfl, ?_⟩, ⟨_, rfl⟩, fun e => rfl⟩
  simp

/-- C3: when the caller is not the recorded owner, `change_owner` returns
`False` after only logging a warning — the world it returns has the same
backend resources and the same call trace, so zero backend interactions
happen on that path. -/
theorem c3_change_owner_short_circuits (sh : Sheet) (newOwnerEmail : String)
    (outcome : ShareOutcome) (w : World) (hne : sh.owner ≠ some sh.whoami) :
    Sheet.change_owner sh newOwnerEmail outcome w
      = Except.ok (false, sh, w.logWarning
          "Service account is not the current owner of document. Unable to change owner.") ∧
    (w.logWarning
        "Service account is not the current owner of document. Unable to change owner.").calls
      = w.calls ∧
    (w.logWarning
        "Service account is not the current owner of document. Unable to change owner.").sheets
      = w.sheets := by
  refine ⟨?_, rfl, rfl⟩
  simp [Sheet.change_owner, hne]

/-- C3 witness: the writer-only Session short-circuits without touching the
backend. -/
theorem c3_change_owner_short_circuits_w :
    Sheet.change_owner sessionNotOwner "bob@example.com" ShareOutcome.accepted wFix
      = Except.ok (false, sessionNotOwner, wFix.logWarning
          "Service account is not the current owner of document. Unable to change owner.") :=
  (c3_change_owner_short_circuits sessionNotOwner "bob@example.com" ShareOutcome.accepted wFix
    (by decide)).1

/-- C4: when the caller is the recorded owner, `change_owner` issues
exactly one backend share request — `(new_owner_email, 'user', 'owner',
notify=False)` — returning `True` on acceptance, and `False` plus a logged
warning, without raising, on a backend rejection. -/
theorem c4_change_owner_as_owner (sh : Sheet) (newOwnerEmail : String) (w : World)
    (hown : sh.owner = some sh.whoami) :
    (∃ w1, Sheet.change_owner sh newOwnerEmail ShareOutcome.accepted w
        = Except.ok (true, sh, w1) ∧
      w1.calls = w.calls ++ [BackendCall.share sh.s newOwnerEmail "user" "owner" false]) ∧
    (∃ w1, Sheet.change_owner sh newOwnerEmail ShareOutcome.requestError w
        = Except.ok (false, sh, w1) ∧
      w1.calls = w.calls ++ [BackendCall.share sh.s newOwnerEmail "user" "owner" false] ∧
      LogEntry.mk LogLevel.warning ("Unable to change owner to " ++ newOwnerEmail ++ ".")
        ∈ w1.log) := by
  have hb : (sh.owner == some sh.whoami) = true := by simp [hown]
  constructor
  · unfold Sheet.change_owner
    rw [hb]
    exact ⟨_, by rfl, by simp [backendShare]⟩
  · unfold Sheet.change_owner
    rw [hb]
    exact ⟨_, by rfl, by simp [backendShare], by simp [backendShare]⟩

/-- C4 witness: the owner Session's transfer succeeds against an accepting
backend and records exactly one share round trip. -/
theorem c4_change_owner_as_owner_w :
    ∃ w1, Sheet.change_owner sessionOwner "bob@example.com" ShareOutcome.accepted wFix
        = Except.ok (true, sessionOwner, w1) ∧
      w1.calls = wFix.calls ++ [BackendCall.share 0 "bob@example.com" "user" "owner" false] :=
  (c4_change_owner_as_owner sessionOwner "bob@example.com" wFix rfl).1

/-- C5: a keyword argument outside `{title, key, url}` makes construction
fail with the configuration error, whatever the lookup value. -/
theorem c5_invalid_lookup_key (gc : GClient) (key value : String) (w : World)
    (h1 : key ≠ "title") (h2 : key ≠ "key") (h3 : key ≠ "url") :
    sheetInit gc [] [(key, value)] w = Except.error (PyExn.sheetConfigurationError key) := by
  unfold sheetInit openPhase openSheet
  simp [h1, h2, h3]

/-- C5 witness: the keyword `name` is rejected. -/
theorem c5_invalid_lookup_key_w :
    sheetInit gcFix [] [("name", "Budget")] wFix
      = Except.error (PyExn.sheetConfigurationError "name") :=
  c5_invalid_lookup_key gcFix "name" "Budget" wFix (by decide) (by decide) (by decide)

/-- C6: for each of the three lookup methods, a value that resolves to no
existing resource makes construction fail with the not-found error. -/
theorem c6_missing_resource (gc : GClient) (value : String) (w : World) :
    (w.sheets.findIdx? (fun s => s.title == value) = none →
      sheetInit gc [] [("title", value)] w
        = Except.error (PyExn.sheetNotFoundError "title" value)) ∧
    (w.sheets.findIdx? (fun s => s.key == value) = none →
      sheetInit gc [] [("key", value)] w
        = Except.error (PyExn.sheetNotFoundError "key" value)) ∧
    (w.sheets.findIdx? (fun s => s.url == value) = none →
      sheetInit gc [] [("url", value)] w
        = Except.error (PyExn.sheetNotFoundError "url" value)) := by
  refine ⟨fun h => ?_, fun h => ?_, fun h => ?_⟩ <;>
    simp [sheetInit, openPhase, openSheet, gcOpen, gcOpenByKey, gcOpenByUrl, h]

/-- C6 witness: looking up a title in an empty backend fails as not found. -/
theorem c6_missing_resource_w :
    sheetInit gcFix [] [("title", "Ghost")] ⟨[], 5, [], []⟩
      = Except.error (PyExn.sheetNotFoundError "title" "Ghost") :=
  (c6_missing_resource gcFix "Ghost" ⟨[], 5, [], []⟩).1 rfl

/-- Construction is determined by the outcome of the lookup phase. -/
theorem sheetInit_congr {gc : GClient} {args1 : List String}
    {kwargs1 : List (String × String)} {args2 : List String}
    {kwargs2 : List (String × String)} {w : World}
    (h : openPhase gc args1 kwargs1 w = openPhase gc args2 kwargs2 w) :
    sheetInit gc args1 kwargs1 w = sheetInit gc args2 kwargs2 w := by
  unfold sheetInit
  rw [h]

/-- C7: with several keyword arguments, construction proceeds and behaves
exactly like construction with the single pair `popitem` removes (the most
recently added one); that pair is among the supplied pairs and all others
are ignored. -/
theorem c7_multiple_kwargs_pick_one (gc : GClient) (kwargs : List (String × String))
    (key value : String) (w : World) :
    sheetInit gc [] (kwargs ++ [(key, value)]) w = sheetInit gc [] [(key, value)] w ∧
    (key, value) ∈ kwargs ++ [(key, value)] := by
  constructor
  · apply sheetInit_congr
    have h : (kwargs ++ [(key, value)]).reverse = (key, value) :: kwargs.reverse := by simp
    unfold openPhase
    rw [h]
    rfl
  · simp

/-- C9: `share` and `change_owner` return the Session fields exactly as
captured at construction; in particular a successful ownership transfer
leaves `owner` naming the previous owner, so a second `change_owner` by the
old owner still passes the local precondition and reaches the backend. -/
theorem c9_session_state_frame (sh : Sheet) (email role newOwnerEmail : String)
    (notify : Bool) (outcome : ShareOutcome) (w : World) :
    (∀ b sh1 w1, Sheet.share sh email role notify outcome w = Except.ok (b, sh1, w1) →
      sh1 = sh) ∧
    (∀ b sh1 w1, Sheet.change_owner sh newOwnerEmail outcome w = Except.ok (b, sh1, w1) →
      sh1 = sh) ∧
    (∀ sh1 w1, sh.owner = some sh.whoami →
      Sheet.change_owner sh newOwnerEmail ShareOutcome.accepted w = Except.ok (true, sh1, w1) →
      sh1.owner = some sh1.whoami ∧
      ∃ w2, Sheet.change_owner sh1 newOwnerEmail ShareOutcome.accepted w1
          = Except.ok (true, sh1, w2)) := by
  have hchange : ∀ (o : ShareOutcome) (w0 : World) b sh1 w1,
      Sheet.change_owner sh newOwnerEmail o w0 = Except.ok (b, sh1, w1) → sh1 = sh := by
    intro o w0 b sh1 w1 hok
    unfold Sheet.change_owner at hok
    split at hok
    · cases o
      · injection hok with h1; injection h1 with h2 h3; injection h3 with h4 h5
        exact h4.symm
      · injection hok with h1; injection h1 with h2 h3; injection h3 with h4 h5
        exact h4.symm
      · exact (nomatch hok)
    · injection hok with h1; injection h1 with h2 h3; injection h3 with h4 h5
      exact h4.symm
  have hshare : ∀ b sh1 w1,
      Sheet.share sh email role notify outcome w = Except.ok (b, sh1, w1) → sh1 = sh := by
    intro b sh1 w1 hok
    cases outcome
    · injection hok with h1; injection h1 with h2 h3; injection h3 with h4 h5
      exact h4.symm
    · injection hok with h1; injection h1 with h2 h3; injection h3 with h4 h5
      exact h4.symm
    · exact (nomatch hok)
  refine ⟨hshare, hchange outcome w, ?_⟩
  intro sh1 w1 hown hok
  have hsh : sh1 = sh := hchange ShareOutcome.accepted w true sh1 w1 hok
  subst hsh
  constructor
  · rw [hown]
  · have hb : (sh1.owner == some sh1.whoami) = true := by simp [hown]
    unfold Sheet.change_owner
    rw [hb]
    exact ⟨_, by rfl⟩

/-- The world after `sessionOwner` transfers ownership once against an
accepting backend, starting from `wFix`. -/
def c9World1 : World :=
  match Sheet.change_owner sessionOwner "bob@example.com" ShareOutcome.accepted wFix with
  | Except.ok (_, _, w1) => w1
  | Except.error _ => wFix

/-- C9 witness: after a successful transfer the Session still records the
old owner, and a second transfer by the same caller again reaches the
backend and succeeds. -/
theorem c9_session_state_frame_w :
    sessionOwner.owner = some sessionOwner.whoami ∧
    ∃ w2, Sheet.change_owner sessionOwner "bob@example.com" ShareOutcome.accepted c9World1
        = Except.ok (true, sessionOwner, w2) :=
  (c9_session_state_frame sessionOwner "eve@example.com" "writer" "bob@example.com" true
    ShareOutcome.accepted wFix).2.2 sessionOwner c9World1 rfl rfl

/-- C10: a first positional argument wins — construction equals a pure
title lookup on it, every keyword argument and every further positional
argument being ignored. -/
theorem c10_positional_precedence (gc : GClient) (t : String) (rest : List String)
    (kwargs : List (String × String)) (w : World) :
    sheetInit gc (t :: rest) kwargs w = sheetInit gc [t] [] w ∧
    openPhase gc (t :: rest) kwargs w = openSheet "title" t w :=
  ⟨rfl, rfl⟩

/-- The fresh-name source never repeats. -/
theorem uuid4_injective : Function.Injective uuid4 := by
  intro a b hab
  have hl := congrArg String.length hab
  simpa [uuid4] using hl

/-- The freshly provisioned resource sits at the new handle. -/
theorem createdWorld_getElem (gc : GClient) (w : World) :
    (createdWorld gc w).sheets[w.sheets.length]?
      = some (newSpreadsheet gc.authEmail (uuid4 w.uuidCounter)) := by
  simp [createdWorld]

/-- C8: zero-argument construction always provisions a new backend
resource under a freshly generated name; running it twice provisions two
distinct resources with distinct generated names. -/
theorem c8_create_not_idempotent (gc : GClient) (w : World) :
    ∃ sh w1 sh2 w2,
      sheetInit gc [] [] w = Except.ok (sh, w1) ∧
      sheetInit gc [] [] w1 = Except.ok (sh2, w2) ∧
      BackendCall.create (uuid4 w.uuidCounter) ∈ w1.calls ∧
      BackendCall.create (uuid4 (w.uuidCounter + 1)) ∈ w2.calls ∧
      w1.sheets[sh.s]? = some (newSpreadsheet gc.authEmail (uuid4 w.uuidCounter)) ∧
      w2.sheets[sh2.s]? = some (newSpreadsheet gc.authEmail (uuid4 (w.uuidCounter + 1))) ∧
      sh.s ≠ sh2.s ∧
      uuid4 w.uuidCounter ≠ uuid4 (w.uuidCounter + 1) ∧
      w1.sheets.length = w.sheets.length + 1 := by
  refine ⟨_, _, _, _, sheetInit_create gc w, sheetInit_create gc (createdWorld gc w),
    ?_, ?_, ?_, ?_, ?_, ?_, ?_⟩
  · simp [createdWorld]
  · simp [createdWorld]
  · exact createdWorld_getElem gc w
  · exact createdWorld_getElem gc (createdWorld gc w)
  · simp [createdWorld]
  · intro h
    have := uuid4_injective h
    omega
  · simp [createdWorld]

end SheetSpec
